import Mathlib

/-!
Verification of the ClawGuard client-side governance core: a shallow
embedding of the tool-policy enforcer, the org-policy cache, the audit
logger and the kill-switch heartbeat manager, with theorems settling the
specification claims about them.

Sources embedded:
- policy/tool-enforcer.ts (normalizeToolName, expandGroups, createToolEnforcerHook)
- policy/org-policy-cache.ts (loadCachedPolicy, saveCachedPolicy, loadCachedPolicyFallback)
- audit/audit-logger.ts (AuditLogger: enqueue, updateAuditLevel, flush,
  persistBuffer, clearPersistedBuffer, loadPersistedBuffer, constructor)
- heartbeat/kill-switch.ts (KillSwitchManager: heartbeat, handleFailure)

Modelling conventions: machine time is Int milliseconds; the filesystem
slot holding a JSON file is an Option of its parse result (none models a
missing file or a read failure, a payload of none models a corrupt file);
JavaScript string trimming and ASCII case folding are modelled over the
character list underlying a String; network calls are parametrised by an
explicit response outcome.
-/

namespace ClawGuard

/-- Whitespace test used by the model of JavaScript trim (ASCII whitespace:
space, tab, line feed, carriage return). -/
def jsIsWs (c : Char) : Bool :=
  c.toNat == 32 || c.toNat == 9 || c.toNat == 10 || c.toNat == 13

/-- ASCII case folding of a single character, modelling toLowerCase:
uppercase A through Z (codes 65 to 90) shift by 32; everything else is
returned unchanged. -/
def jsCharLower (c : Char) : Char :=
  if 65 ≤ c.toNat ∧ c.toNat ≤ 90 then Char.ofNat (c.toNat + 32) else c

/-- Lowercase every character of a character list. -/
def jsLowerList (l : List Char) : List Char :=
  l.map jsCharLower

/-- Remove leading and trailing whitespace from a character list,
modelling JavaScript String.prototype.trim. -/
def jsTrimList (l : List Char) : List Char :=
  List.rdropWhile jsIsWs (List.dropWhile jsIsWs l)

/-- Model of name.trim() on a String. -/
def jsTrim (s : String) : String :=
  String.mk (jsTrimList s.data)

/-- Model of name.toLowerCase() on a String. -/
def jsToLower (s : String) : String :=
  String.mk (jsLowerList s.data)

/-- The fixed alias table of tool-enforcer.ts (TOOL_NAME_ALIASES). -/
def TOOL_NAME_ALIASES : List (String × String) :=
  [("bash", "exec"), ("apply-patch", "apply_patch")]

/-- normalizeToolName from tool-enforcer.ts: lowercase, trim, resolve aliases. -/
def normalizeToolName (name : String) : String :=
  let normalized := jsToLower (jsTrim name)
  ((TOOL_NAME_ALIASES.lookup normalized).getD normalized)

/-- The fixed group table of tool-enforcer.ts (TOOL_GROUPS). -/
def TOOL_GROUPS : List (String × List String) :=
  [ ("group:memory", ["memory_search", "memory_get"])
  , ("group:web", ["web_search", "web_fetch"])
  , ("group:fs", ["read", "write", "edit", "apply_patch"])
  , ("group:runtime", ["exec", "process"])
  , ("group:sessions",
      ["sessions_list", "sessions_history", "sessions_send", "sessions_spawn",
       "subagents", "session_status"])
  , ("group:ui", ["browser", "canvas"])
  , ("group:automation", ["cron", "gateway"])
  , ("group:messaging", ["message"])
  , ("group:nodes", ["nodes"]) ]

/-- expandGroups from tool-enforcer.ts: normalize each entry, expand known
group names through TOOL_GROUPS, pass unrecognized entries through
literally.  The JavaScript Set is modelled as a list queried by
membership only. -/
def expandGroups (list : List String) : List String :=
  list.foldl
    (fun expanded entry =>
      let normalized := normalizeToolName entry
      match TOOL_GROUPS.lookup normalized with
      | some group => expanded ++ group
      | none => expanded ++ [normalized])
    []

/-- Audit level from types.ts (OrgPolicy.auditLevel). -/
inductive AuditLevel
  | full
  | metadata
  | off
deriving DecidableEq, Repr

/-- Approved skill tuple from types.ts. -/
structure ApprovedSkill where
  name : String
  key : String
  scope : String
deriving DecidableEq, Repr

/-- The tools section of OrgPolicy from types.ts; optional fields are Options. -/
structure ToolsConfig where
  allow : Option (List String)
  deny : Option (List String)
  profile : Option String
deriving DecidableEq, Repr

/-- The skills section of OrgPolicy from types.ts. -/
structure SkillsConfig where
  approved : List ApprovedSkill
  requireApproval : Bool
deriving DecidableEq, Repr

/-- The killSwitch section of OrgPolicy from types.ts. -/
structure KillSwitchConfig where
  active : Bool
  message : Option String
deriving DecidableEq, Repr

/-- OrgPolicy from types.ts. -/
structure OrgPolicy where
  version : Int
  tools : ToolsConfig
  skills : SkillsConfig
  killSwitch : KillSwitchConfig
  auditLevel : AuditLevel
deriving DecidableEq, Repr

/-- CachedPolicy from types.ts.  ttlMs is an Option because the value read
back from disk comes from an unchecked JSON cast and the loader guards it
with a nullish-coalescing default. -/
structure CachedPolicy where
  policy : OrgPolicy
  fetchedAt : Int
  ttlMs : Option Int
deriving DecidableEq, Repr

/-- Event outcome from types.ts (AuditEvent.outcome). -/
inductive Outcome
  | allowed
  | blocked
  | error
  | success
deriving DecidableEq, Repr

/-- The nine-way event type enum from types.ts. -/
inductive AuditEventType
  | tool_call_attempt
  | tool_call_result
  | session_start
  | session_end
  | llm_input
  | llm_output
  | kill_switch_activated
  | policy_refresh
deriving DecidableEq, Repr

/-- Metadata records (Record string unknown in the source) are modelled as
association lists of string keys and string values; only presence,
absence and the reason entry matter to the claims. -/
abbrev Metadata := List (String × String)

/-- AuditEvent from types.ts. -/
structure AuditEvent where
  userId : String
  orgId : String
  agentId : Option String
  sessionKey : Option String
  eventType : AuditEventType
  toolName : Option String
  timestamp : Int
  outcome : Outcome
  metadata : Option Metadata
deriving DecidableEq, Repr

/-- The argument record of AuditLogger.enqueue (AuditLoggerEnqueueParams). -/
structure EnqueueParams where
  eventType : AuditEventType
  toolName : Option String
  outcome : Outcome
  agentId : Option String
  sessionKey : Option String
  metadata : Option Metadata
deriving DecidableEq, Repr

/-- The block decision returned by the before-tool-call hook
(PluginHookBeforeToolCallResult). -/
structure BlockResult where
  block : Bool
  blockReason : String
deriving DecidableEq, Repr

/-- ToolEnforcerState from tool-enforcer.ts (the shared EnforcementState). -/
structure ToolEnforcerState where
  policy : Option OrgPolicy
  killSwitchActive : Bool
  killSwitchMessage : Option String
deriving DecidableEq, Repr

/-- The hook context fields the enforcer reads (PluginHookToolContext). -/
structure HookContext where
  agentId : Option String
  sessionKey : Option String
deriving DecidableEq, Repr

/-- createToolEnforcerHook from tool-enforcer.ts.  The returned closure is
modelled as a pure function of the shared state, the raw tool name of the
event and the hook context; it returns the optional block decision
together with the list of enqueue calls issued to the audit logger (the
source issues exactly one per invocation). -/
def createToolEnforcerHook (state : ToolEnforcerState) (eventToolName : String)
    (ctx : HookContext) : Option BlockResult × List EnqueueParams :=
  let toolName := normalizeToolName eventToolName
  if state.killSwitchActive then
    let reason := state.killSwitchMessage.getD
      "ClawGuard: All tool calls blocked by organization kill switch"
    (some { block := true, blockReason := reason },
     [{ eventType := AuditEventType.tool_call_attempt, toolName := some toolName,
        outcome := Outcome.blocked, agentId := ctx.agentId,
        sessionKey := ctx.sessionKey, metadata := some [("reason", "kill_switch")] }])
  else
    match state.policy with
    | none =>
        (none,
         [{ eventType := AuditEventType.tool_call_attempt, toolName := some toolName,
            outcome := Outcome.allowed, agentId := ctx.agentId,
            sessionKey := ctx.sessionKey, metadata := some [("reason", "no_policy")] }])
    | some policy =>
        let denyHit :=
          match policy.tools.deny with
          | some deny => decide (deny.length > 0) && (expandGroups deny).contains toolName
          | none => false
        if denyHit then
          (some { block := true,
                  blockReason := "ClawGuard: Tool \"" ++ eventToolName ++
                    "\" is blocked by organization policy" },
           [{ eventType := AuditEventType.tool_call_attempt, toolName := some toolName,
              outcome := Outcome.blocked, agentId := ctx.agentId,
              sessionKey := ctx.sessionKey, metadata := some [("reason", "deny_list")] }])
        else
          let allowMiss :=
            match policy.tools.allow with
            | some allow => decide (allow.length > 0) && !(expandGroups allow).contains toolName
            | none => false
          if allowMiss then
            (some { block := true,
                    blockReason := "ClawGuard: Tool \"" ++ eventToolName ++
                      "\" is not in the organization\x27s allowed tools list" },
             [{ eventType := AuditEventType.tool_call_attempt, toolName := some toolName,
                outcome := Outcome.blocked, agentId := ctx.agentId,
                sessionKey := ctx.sessionKey,
                metadata := some [("reason", "not_in_allowlist")] }])
          else
            (none,
             [{ eventType := AuditEventType.tool_call_attempt, toolName := some toolName,
                outcome := Outcome.allowed, agentId := ctx.agentId,
                sessionKey := ctx.sessionKey, metadata := none }])

/-- The observable decision of one hook invocation: whether it blocks
(none models the undefined return, an allow) together with the enqueued
audit events, which carry the audited outcome and reason.  The free-text
blockReason shown to the user is not part of the decision. -/
def hookDecision (state : ToolEnforcerState) (eventToolName : String)
    (ctx : HookContext) : Option Bool × List EnqueueParams :=
  let r := createToolEnforcerHook state eventToolName ctx
  (r.1.map BlockResult.block, r.2)

theorem toNat_ofNat_valid (n : Nat) (h : n < 55296) : (Char.ofNat n).toNat = n := by
  unfold Char.ofNat
  split
  · rfl
  · next hh => exact absurd (Or.inl h) hh

theorem jsCharLower_idem (c : Char) : jsCharLower (jsCharLower c) = jsCharLower c := by
  by_cases h : 65 ≤ c.toNat ∧ c.toNat ≤ 90
  · have hc : jsCharLower c = Char.ofNat (c.toNat + 32) := by
      unfold jsCharLower
      rw [if_pos h]
    have ht : (Char.ofNat (c.toNat + 32)).toNat = c.toNat + 32 :=
      toNat_ofNat_valid _ (by omega)
    rw [hc]
    show jsCharLower (Char.ofNat (c.toNat + 32)) = Char.ofNat (c.toNat + 32)
    unfold jsCharLower
    rw [if_neg (by rw [ht]; omega)]
  · have hc : jsCharLower c = c := by
      unfold jsCharLower
      rw [if_neg h]
    rw [hc]
    exact hc

theorem jsIsWs_jsCharLower (c : Char) : jsIsWs (jsCharLower c) = jsIsWs c := by
  by_cases h : 65 ≤ c.toNat ∧ c.toNat ≤ 90
  · have hc : jsCharLower c = Char.ofNat (c.toNat + 32) := by
      unfold jsCharLower
      rw [if_pos h]
    have ht : (Char.ofNat (c.toNat + 32)).toNat = c.toNat + 32 :=
      toNat_ofNat_valid _ (by omega)
    rw [hc]
    have e1 : jsIsWs (Char.ofNat (c.toNat + 32)) = false := by
      simp [jsIsWs, ht]
      omega
    have e2 : jsIsWs c = false := by
      simp [jsIsWs]
      omega
    rw [e1, e2]
  · have hc : jsCharLower c = c := by
      unfold jsCharLower
      rw [if_neg h]
    rw [hc]

theorem jsLowerList_idem (l : List Char) : jsLowerList (jsLowerList l) = jsLowerList l := by
  induction l with
  | nil => rfl
  | cons a t ih =>
      simp only [jsLowerList, List.map_cons] at ih ⊢
      rw [jsCharLower_idem, ih]

theorem dropWhile_jsLowerList (l : List Char) :
    List.dropWhile jsIsWs (jsLowerList l) = jsLowerList (List.dropWhile jsIsWs l) := by
  simp only [jsLowerList]
  rw [List.dropWhile_map]
  have hp : (jsIsWs ∘ jsCharLower) = jsIsWs := funext (fun c => jsIsWs_jsCharLower c)
  rw [hp]

theorem rdropWhile_jsLowerList (l : List Char) :
    List.rdropWhile jsIsWs (jsLowerList l) = jsLowerList (List.rdropWhile jsIsWs l) := by
  have h1 : (jsLowerList l).reverse = jsLowerList l.reverse := by
    simp only [jsLowerList]
    rw [List.map_reverse]
  show (List.dropWhile jsIsWs (jsLowerList l).reverse).reverse
      = jsLowerList (List.dropWhile jsIsWs l.reverse).reverse
  rw [h1, dropWhile_jsLowerList]
  simp only [jsLowerList]
  rw [List.map_reverse]

theorem jsTrimList_jsLowerList (l : List Char) :
    jsTrimList (jsLowerList l) = jsLowerList (jsTrimList l) := by
  simp only [jsTrimList]
  rw [dropWhile_jsLowerList, rdropWhile_jsLowerList]

theorem dropWhile_rdropWhile_dropWhile {α : Type} (p : α → Bool) (l : List α) :
    List.dropWhile p (List.rdropWhile p (List.dropWhile p l))
      = List.rdropWhile p (List.dropWhile p l) := by
  obtain ⟨t, ht⟩ := List.dropWhile_suffix (l := (List.dropWhile p l).reverse) p
  cases hr : List.rdropWhile p (List.dropWhile p l) with
  | nil => simp
  | cons a s =>
      have hu2 : List.dropWhile p l = a :: (s ++ t.reverse) := by
        have h3 : List.dropWhile p l
            = (t ++ List.dropWhile p (List.dropWhile p l).reverse).reverse := by
          rw [ht, List.reverse_reverse]
        rw [List.reverse_append] at h3
        have h4 : (List.dropWhile p (List.dropWhile p l).reverse).reverse = a :: s := hr
        rw [h4] at h3
        simpa using h3
      have hne : List.dropWhile p l ≠ [] := by rw [hu2]; simp
      have hpa : p a = false := by
        have hh := List.head_dropWhile_not p l hne
        simpa [hu2] using hh
      rw [List.dropWhile_cons, hpa]
      simp

theorem jsTrimList_idem (l : List Char) : jsTrimList (jsTrimList l) = jsTrimList l := by
  show jsTrimList (List.rdropWhile jsIsWs (List.dropWhile jsIsWs l))
      = List.rdropWhile jsIsWs (List.dropWhile jsIsWs l)
  unfold jsTrimList
  rw [dropWhile_rdropWhile_dropWhile, List.rdropWhile_idempotent]

theorem normalizedName_fixed (s : String) :
    jsToLower (jsTrim (jsToLower (jsTrim s))) = jsToLower (jsTrim s) := by
  simp only [jsToLower, jsTrim]
  show String.mk (jsLowerList (jsTrimList (jsLowerList (jsTrimList s.data))))
      = String.mk (jsLowerList (jsTrimList s.data))
  rw [jsTrimList_jsLowerList, jsLowerList_idem, jsTrimList_idem]

theorem normalizeToolName_idem (s : String) :
    normalizeToolName (normalizeToolName s) = normalizeToolName s := by
  cases hl : TOOL_NAME_ALIASES.lookup (jsToLower (jsTrim s)) with
  | none =>
      have h1 : normalizeToolName s = jsToLower (jsTrim s) := by
        simp only [normalizeToolName, hl, Option.getD_none]
      rw [h1]
      simp only [normalizeToolName, normalizedName_fixed, hl, Option.getD_none]
  | some v =>
      have h1 : normalizeToolName s = v := by
        simp only [normalizeToolName, hl, Option.getD_some]
      have hv : v = "exec" ∨ v = "apply_patch" := by
        rw [show TOOL_NAME_ALIASES = [("bash", "exec"), ("apply-patch", "apply_patch")]
          from rfl] at hl
        simp only [List.lookup] at hl
        split at hl
        · exact Or.inl (Option.some.inj hl).symm
        · split at hl
          · exact Or.inr (Option.some.inj hl).symm
          · exact absurd hl (by simp)
      rw [h1]
      rcases hv with hv | hv <;> subst hv <;> decide

/-- Concrete hook context used by witness theorems, mirroring the test
fixture makeCtx of tool-enforcer.test.ts. -/
def exampleCtx : HookContext :=
  { agentId := some "test-agent", sessionKey := some "test-session" }

/-- Concrete policy used by witness theorems, mirroring the test fixture
makePolicy of org-policy-cache.test.ts. -/
def examplePolicy : OrgPolicy :=
  { version := 3
    tools := { allow := some ["read", "write"], deny := some ["exec"], profile := none }
    skills := { approved := [], requireApproval := false }
    killSwitch := { active := false, message := none }
    auditLevel := AuditLevel.metadata }

/-- Concrete enforcement state with the kill switch active. -/
def exampleKillSwitchState : ToolEnforcerState :=
  { policy := some examplePolicy, killSwitchActive := true,
    killSwitchMessage := some "Emergency shutdown" }

/-- Concrete enforcement state whose policy puts exec on both lists. -/
def exampleBothListsState : ToolEnforcerState :=
  { policy := some
      { version := 1
        tools := { allow := some ["read", "exec"], deny := some ["exec"], profile := none }
        skills := { approved := [], requireApproval := false }
        killSwitch := { active := false, message := none }
        auditLevel := AuditLevel.metadata }
    killSwitchActive := false
    killSwitchMessage := none }

/-- C1: whenever killSwitchActive is true, for every tool name and every
policy (including no policy at all), the before-tool-call enforcer hook
returns a block decision and enqueues exactly one audit event, with
outcome blocked and metadata reason kill_switch; the kill-switch branch
runs before any deny or allow logic, so the policy content is irrelevant. -/
theorem killSwitch_blocks_every_tool (state : ToolEnforcerState) (name : String)
    (ctx : HookContext) (h : state.killSwitchActive = true) :
    (∃ r, (createToolEnforcerHook state name ctx).1 = some r ∧ r.block = true) ∧
    (createToolEnforcerHook state name ctx).2 =
      [{ eventType := AuditEventType.tool_call_attempt,
         toolName := some (normalizeToolName name),
         outcome := Outcome.blocked, agentId := ctx.agentId,
         sessionKey := ctx.sessionKey,
         metadata := some [("reason", "kill_switch")] }] := by
  unfold createToolEnforcerHook
  rw [h]
  exact ⟨⟨_, rfl, rfl⟩, rfl⟩

/-- C1 witness: with the kill switch active, calling read is blocked and
audited with reason kill_switch, even though the loaded policy would
allow read. -/
theorem killSwitch_blocks_every_tool_witness :
    (∃ r, (createToolEnforcerHook exampleKillSwitchState "read" exampleCtx).1 = some r ∧
        r.block = true) ∧
    (createToolEnforcerHook exampleKillSwitchState "read" exampleCtx).2 =
      [{ eventType := AuditEventType.tool_call_attempt,
         toolName := some (normalizeToolName "read"),
         outcome := Outcome.blocked, agentId := exampleCtx.agentId,
         sessionKey := exampleCtx.sessionKey,
         metadata := some [("reason", "kill_switch")] }] :=
  killSwitch_blocks_every_tool exampleKillSwitchState "read" exampleCtx rfl

/-- C2: with the kill switch inactive, a tool whose normalized name is in
both the expanded deny list and the expanded allow list is blocked with
audit metadata reason deny_list: the deny check runs before the allow
check. -/
theorem deny_checked_before_allow (state : ToolEnforcerState) (policy : OrgPolicy)
    (name : String) (ctx : HookContext) (d a : List String)
    (hks : state.killSwitchActive = false)
    (hp : state.policy = some policy)
    (hd : policy.tools.deny = some d)
    (ha : policy.tools.allow = some a)
    (hmemd : (expandGroups d).contains (normalizeToolName name) = true)
    (hmema : (expandGroups a).contains (normalizeToolName name) = true) :
    (∃ r, (createToolEnforcerHook state name ctx).1 = some r ∧ r.block = true) ∧
    (createToolEnforcerHook state name ctx).2 =
      [{ eventType := AuditEventType.tool_call_attempt,
         toolName := some (normalizeToolName name),
         outcome := Outcome.blocked, agentId := ctx.agentId,
         sessionKey := ctx.sessionKey,
         metadata := some [("reason", "deny_list")] }] := by
  have hdne : d ≠ [] := by
    rintro rfl
    simp [expandGroups] at hmemd
  have hlen : decide (d.length > 0) = true := by
    cases d with
    | nil => exact absurd rfl hdne
    | cons x xs => simp
  unfold createToolEnforcerHook
  rw [hks, hp]
  simp only [hd, hlen, hmemd, Bool.and_self, if_true, Bool.true_and]
  exact ⟨⟨_, rfl, rfl⟩, rfl⟩

/-- C2 witness: with policy deny [exec] and allow [read, exec], calling
exec is blocked with reason deny_list. -/
theorem deny_checked_before_allow_witness :
    (∃ r, (createToolEnforcerHook exampleBothListsState "exec" exampleCtx).1 = some r ∧
        r.block = true) ∧
    (createToolEnforcerHook exampleBothListsState "exec" exampleCtx).2 =
      [{ eventType := AuditEventType.tool_call_attempt,
         toolName := some (normalizeToolName "exec"),
         outcome := Outcome.blocked, agentId := exampleCtx.agentId,
         sessionKey := exampleCtx.sessionKey,
         metadata := some [("reason", "deny_list")] }] :=
  deny_checked_before_allow exampleBothListsState _ "exec" exampleCtx
    ["exec"] ["read", "exec"] rfl rfl rfl rfl (by decide) (by decide)

/-- C3: the decision of the enforcer hook, meaning the block-versus-allow
result together with the audited outcome and reason, is the same on a raw
tool name and on its normalized form; in particular the alias bash and
its canonical form exec always receive identical decisions. -/
theorem decision_invariant_under_normalization :
    (∀ (state : ToolEnforcerState) (name : String) (ctx : HookContext),
        hookDecision state name ctx = hookDecision state (normalizeToolName name) ctx) ∧
    (∀ (state : ToolEnforcerState) (ctx : HookContext),
        hookDecision state "bash" ctx = hookDecision state "exec" ctx) := by
  have main : ∀ (state : ToolEnforcerState) (name : String) (ctx : HookContext),
      hookDecision state name ctx = hookDecision state (normalizeToolName name) ctx := by
    intro state name ctx
    unfold hookDecision createToolEnforcerHook
    rw [normalizeToolName_idem]
    cases hks : state.killSwitchActive
    · cases hp : state.policy with
      | none => rfl
      | some policy =>
          simp only
          repeat' split
          all_goals rfl
    · rfl
  refine ⟨main, ?_⟩
  intro state ctx
  have h1 := main state "bash" ctx
  have h2 := main state "exec" ctx
  rw [show normalizeToolName "bash" = "exec" from by decide] at h1
  rw [show normalizeToolName "exec" = "exec" from by decide] at h2
  rw [h1, ← h2]

/-- Default TTL of org-policy-cache.ts: one hour in milliseconds. -/
def DEFAULT_TTL_MS : Int := 60 * 60 * 1000

/-- The cache file slot: none models a missing or unreadable file, some
none models a file whose JSON does not parse, some (some c) a parsed
CachedPolicy record. -/
abbrev CacheFile := Option (Option CachedPolicy)

/-- loadCachedPolicy from org-policy-cache.ts.  Reads the cache file,
computes the effective TTL with the nullish-coalescing chain
ttlMs, cached.ttlMs, DEFAULT_TTL_MS, and returns the policy unless more
than the TTL has elapsed since fetchedAt; any read or parse failure
degrades to none. -/
def loadCachedPolicy (file : CacheFile) (now : Int) (ttlMs : Option Int) :
    Option OrgPolicy :=
  match file with
  | none => none
  | some none => none
  | some (some cached) =>
      let ttl := ttlMs.getD (cached.ttlMs.getD DEFAULT_TTL_MS)
      if now - cached.fetchedAt > ttl then none
      else some cached.policy

/-- saveCachedPolicy from org-policy-cache.ts: overwrites the cache file
with the policy, the current time as fetchedAt and the given TTL
(defaulted to DEFAULT_TTL_MS).  Returns the new file content. -/
def saveCachedPolicy (policy : OrgPolicy) (now : Int) (ttlMs : Option Int) : CacheFile :=
  some (some { policy := policy, fetchedAt := now, ttlMs := some (ttlMs.getD DEFAULT_TTL_MS) })

/-- loadCachedPolicyFallback from org-policy-cache.ts: same read path but
without any TTL check. -/
def loadCachedPolicyFallback (file : CacheFile) : Option OrgPolicy :=
  match file with
  | none => none
  | some none => none
  | some (some cached) => some cached.policy

/-- C4: the cache round-trip.  After saveCachedPolicy at time t0 with TTL
T, loadCachedPolicy with TTL T at time now returns the saved policy
exactly when now - t0 is at most T, and returns none once more than T has
elapsed; loadCachedPolicyFallback ignores the TTL and returns the saved
policy unconditionally; a missing or corrupt cache file makes both
loaders return none rather than fail. -/
theorem cache_roundtrip (policy : OrgPolicy) (T t0 now : Int) :
    (loadCachedPolicy (saveCachedPolicy policy t0 (some T)) now (some T) = some policy
        ↔ now - t0 ≤ T) ∧
    (now - t0 > T →
        loadCachedPolicy (saveCachedPolicy policy t0 (some T)) now (some T) = none) ∧
    loadCachedPolicyFallback (saveCachedPolicy policy t0 (some T)) = some policy ∧
    loadCachedPolicy none now (some T) = none ∧
    loadCachedPolicy (some none) now (some T) = none ∧
    loadCachedPolicyFallback none = none ∧
    loadCachedPolicyFallback (some none) = none := by
  refine ⟨?_, ?_, rfl, rfl, rfl, rfl, rfl⟩
  · unfold loadCachedPolicy saveCachedPolicy
    simp only [Option.getD_some]
    constructor
    · intro h
      by_contra hc
      rw [if_pos (by omega)] at h
      exact Option.noConfusion h
    · intro h
      rw [if_neg (by omega)]
  · intro h
    unfold loadCachedPolicy saveCachedPolicy
    simp only [Option.getD_some]
    rw [if_pos (by omega)]

/-- C4 witness: a policy saved at time 0 with a 60000 ms TTL is loaded
back intact at time 50000, is gone at time 60001, and is still returned
by the fallback loader at any time. -/
theorem cache_roundtrip_witness :
    loadCachedPolicy (saveCachedPolicy examplePolicy 0 (some 60000)) 50000 (some 60000)
        = some examplePolicy ∧
    loadCachedPolicy (saveCachedPolicy examplePolicy 0 (some 60000)) 60001 (some 60000)
        = none ∧
    loadCachedPolicyFallback (saveCachedPolicy examplePolicy 0 (some 60000))
        = some examplePolicy :=
  ⟨(cache_roundtrip examplePolicy 60000 0 50000).1.mpr (by decide),
   (cache_roundtrip examplePolicy 60000 0 60001).2.1 (by decide),
   (cache_roundtrip examplePolicy 60000 0 0).2.2.1⟩

/-- ClawGuardPluginConfig from types.ts (the fields the core reads). -/
structure ClawGuardPluginConfig where
  controlPlaneUrl : Option String
  orgId : Option String
  policyCacheTtlMs : Option Int
  heartbeatIntervalMs : Option Int
  heartbeatFailureThreshold : Option Nat
  auditBatchSize : Option Nat
  auditFlushIntervalMs : Option Int
deriving DecidableEq, Repr

/-- SessionTokens from types.ts. -/
structure SessionTokens where
  accessToken : String
  refreshToken : Option String
  expiresAt : Option Int
  userId : String
  orgId : String
  email : Option String
  roles : Option (List String)
deriving DecidableEq, Repr

/-- Default batch size of audit-logger.ts. -/
def DEFAULT_BATCH_SIZE : Nat := 100

/-- Default flush interval of audit-logger.ts, in milliseconds. -/
def DEFAULT_FLUSH_INTERVAL_MS : Int := 30000

/-- The audit-buffer file (audit-buffer.jsonl): none models a missing or
unreadable file; each line is modelled by its JSON parse result, none
standing for a malformed (or blank, hence filtered) line. -/
abbrev BufferFile := Option (List (Option AuditEvent))

/-- The mutable fields of the AuditLogger class, together with the
audit-buffer file it owns. -/
structure AuditLoggerState where
  buffer : List AuditEvent
  batchSize : Nat
  flushIntervalMs : Int
  controlPlaneUrl : String
  orgId : String
  userId : String
  accessToken : String
  auditLevel : AuditLevel
  bufferFile : BufferFile
deriving DecidableEq, Repr

/-- AuditLogger.loadPersistedBuffer: push the parse result of every
well-formed line, in file order, skipping malformed lines individually;
a missing file yields nothing. -/
def loadPersistedBuffer (file : BufferFile) : List AuditEvent :=
  match file with
  | none => []
  | some lines => lines.filterMap id

/-- The AuditLogger constructor: apply config defaults and reload any
previously persisted events from the audit-buffer file into the buffer. -/
def mkAuditLogger (config : ClawGuardPluginConfig) (session : SessionTokens)
    (auditLevel : Option AuditLevel) (file : BufferFile) : AuditLoggerState :=
  { buffer := loadPersistedBuffer file
    batchSize := config.auditBatchSize.getD DEFAULT_BATCH_SIZE
    flushIntervalMs := config.auditFlushIntervalMs.getD DEFAULT_FLUSH_INTERVAL_MS
    controlPlaneUrl := config.controlPlaneUrl.getD ""
    orgId := session.orgId
    userId := session.userId
    accessToken := session.accessToken
    auditLevel := auditLevel.getD AuditLevel.metadata
    bufferFile := file }

/-- The AuditEvent record built inside AuditLogger.enqueue: identity
fields come from the logger, and metadata is kept only when the current
audit level is full. -/
def mkEvent (st : AuditLoggerState) (now : Int) (p : EnqueueParams) : AuditEvent :=
  { userId := st.userId
    orgId := st.orgId
    agentId := p.agentId
    sessionKey := p.sessionKey
    eventType := p.eventType
    toolName := p.toolName
    timestamp := now
    outcome := p.outcome
    metadata := if st.auditLevel = AuditLevel.full then p.metadata else none }

/-- AuditLogger.enqueue: a no-op at audit level off; otherwise the event
is appended to the buffer.  The returned flag records whether the
batch-size threshold was reached, which in the source schedules an
asynchronous flush. -/
def enqueue (st : AuditLoggerState) (now : Int) (p : EnqueueParams) :
    AuditLoggerState × Bool :=
  if st.auditLevel = AuditLevel.off then (st, false)
  else
    let buffer := st.buffer ++ [mkEvent st now p]
    ({ st with buffer := buffer }, decide (buffer.length ≥ st.batchSize))

/-- AuditLogger.updateAuditLevel. -/
def updateAuditLevel (st : AuditLoggerState) (level : AuditLevel) : AuditLoggerState :=
  { st with auditLevel := level }

/-- Outcome of the POST to the audit ingest endpoint: a 2xx response, a
non-2xx response, or a thrown transport error. -/
inductive PostResult
  | ok
  | httpError (status : Nat)
  | transportError (msg : String)
deriving DecidableEq, Repr

/-- AuditLogger.flush.  The buffer is detached wholesale (splice), so
events enqueued while the POST is in flight (the during argument) land in
a fresh buffer.  No configured endpoint: the detached batch is persisted
to disk and nothing is sent (this branch never suspends, so during does
not apply and the source returns before any enqueue can interleave).
Otherwise the batch is POSTed: on a non-2xx response or a transport error
it is re-inserted at the front of the live buffer and the whole buffer is
persisted; on success the persisted snapshot is cleared.  The second
component is the body of the POST request issued, if any. -/
def flush (st : AuditLoggerState) (during : List AuditEvent) (resp : PostResult) :
    AuditLoggerState × Option (List AuditEvent) :=
  if st.buffer = [] then (st, none)
  else
    let batch := st.buffer
    if st.controlPlaneUrl = "" then
      ({ st with buffer := [], bufferFile := some (batch.map some) }, none)
    else
      match resp with
      | PostResult.ok =>
          ({ st with buffer := during, bufferFile := none }, some batch)
      | PostResult.httpError _ =>
          let buffer := batch ++ during
          ({ st with buffer := buffer, bufferFile := some (buffer.map some) }, some batch)
      | PostResult.transportError _ =>
          let buffer := batch ++ during
          ({ st with buffer := buffer, bufferFile := some (buffer.map some) }, some batch)

/-- A sequence of enqueue calls (timestamp and parameters each). -/
def enqueueMany (st : AuditLoggerState) (inputs : List (Int × EnqueueParams)) :
    AuditLoggerState :=
  inputs.foldl (fun s tp => (enqueue s tp.1 tp.2).1) st

/-- Shared helper: whenever the buffer is non-empty and an endpoint is
configured, flush issues a POST whose body is exactly the detached
buffer, whatever the response turns out to be. -/
theorem flush_post_body (st : AuditLoggerState) (during : List AuditEvent)
    (resp : PostResult) (hne : st.buffer ≠ []) (hurl : st.controlPlaneUrl ≠ "") :
    (flush st during resp).2 = some st.buffer := by
  simp only [flush, if_neg hne, if_neg hurl]
  cases resp <;> rfl

/-- Concrete session fixture, mirroring makeSession of the tests. -/
def exampleSession : SessionTokens :=
  { accessToken := "test-token", refreshToken := none, expiresAt := none,
    userId := "user-1", orgId := "org-123", email := none, roles := none }

/-- Concrete plugin config fixture, mirroring makeConfig of the tests. -/
def exampleConfig : ClawGuardPluginConfig :=
  { controlPlaneUrl := some "https://clawguard.example.com", orgId := some "org-123",
    policyCacheTtlMs := none, heartbeatIntervalMs := some 100,
    heartbeatFailureThreshold := some 3, auditBatchSize := some 5,
    auditFlushIntervalMs := some 60000 }

/-- A logger built at audit level metadata with no persisted file. -/
def exampleLoggerMeta : AuditLoggerState :=
  mkAuditLogger exampleConfig exampleSession (some AuditLevel.metadata) none

/-- Enqueue parameters carrying metadata, used to exhibit stripping. -/
def exampleMetaParams : EnqueueParams :=
  { eventType := AuditEventType.tool_call_attempt, toolName := some "exec",
    outcome := Outcome.allowed, agentId := none, sessionKey := none,
    metadata := some [("detail", "original")] }

/-- C5 counterexample: one event is enqueued while the audit level is
metadata, the level is raised to full before the next flush, and the
flush then POSTs the event with metadata none, not with its original
metadata: the stripping happened at enqueue time, so the mid-flight level
change is not honored retroactively, contradicting the claim at this
input. -/
theorem metadata_strip_time_counterexample :
    ¬ ((flush (updateAuditLevel (enqueue exampleLoggerMeta 1000 exampleMetaParams).1
            AuditLevel.full) [] PostResult.ok).2.map (fun b => b.map AuditEvent.metadata)
        = some [exampleMetaParams.metadata]) := by
  decide

/-- C5 amended: at audit level metadata the metadata of an enqueued event
is stripped at enqueue time, not at ship time: the stored event carries
metadata none, and even if updateAuditLevel raises the level to full
before the next flush, the event is transmitted with metadata none, so a
mid-flight level change is not honored retroactively. -/
theorem metadata_stripped_at_enqueue (st : AuditLoggerState) (t : Int) (p : EnqueueParams)
    (hlvl : st.auditLevel = AuditLevel.metadata) (hurl : st.controlPlaneUrl ≠ "") :
    (enqueue st t p).1.buffer = st.buffer ++ [mkEvent st t p] ∧
    (mkEvent st t p).metadata = none ∧
    ∀ resp, (flush (updateAuditLevel (enqueue st t p).1 AuditLevel.full) [] resp).2
        = some (st.buffer ++ [mkEvent st t p]) := by
  have hoff : ¬ st.auditLevel = AuditLevel.off := by
    rw [hlvl]
    intro hh
    cases hh
  have hb : (enqueue st t p).1.buffer = st.buffer ++ [mkEvent st t p] := by
    unfold enqueue
    rw [if_neg hoff]
  refine ⟨hb, ?_, ?_⟩
  · show (if st.auditLevel = AuditLevel.full then p.metadata else none) = none
    rw [hlvl]
    simp
  · intro resp
    have hne : (updateAuditLevel (enqueue st t p).1 AuditLevel.full).buffer ≠ [] := by
      show (enqueue st t p).1.buffer ≠ []
      rw [hb]
      simp
    have hurl2 : (updateAuditLevel (enqueue st t p).1 AuditLevel.full).controlPlaneUrl ≠ "" := by
      show (enqueue st t p).1.controlPlaneUrl ≠ ""
      unfold enqueue
      rw [if_neg hoff]
      exact hurl
    rw [flush_post_body _ _ _ hne hurl2]
    show some ((enqueue st t p).1.buffer) = _
    rw [hb]

/-- C5 amended witness: the concrete event of the counterexample is
stored and shipped without its metadata. -/
theorem metadata_stripped_at_enqueue_witness :
    (enqueue exampleLoggerMeta 1000 exampleMetaParams).1.buffer
        = exampleLoggerMeta.buffer ++ [mkEvent exampleLoggerMeta 1000 exampleMetaParams] ∧
    (mkEvent exampleLoggerMeta 1000 exampleMetaParams).metadata = none ∧
    ∀ resp, (flush (updateAuditLevel
          (enqueue exampleLoggerMeta 1000 exampleMetaParams).1 AuditLevel.full) [] resp).2
        = some (exampleLoggerMeta.buffer
            ++ [mkEvent exampleLoggerMeta 1000 exampleMetaParams]) :=
  metadata_stripped_at_enqueue exampleLoggerMeta 1000 exampleMetaParams rfl (by decide)

/-- Two concrete audit events used by the flush and restart witnesses. -/
def exampleEvent1 : AuditEvent :=
  { userId := "user-1", orgId := "org-123", agentId := none, sessionKey := none,
    eventType := AuditEventType.tool_call_attempt, toolName := some "exec",
    timestamp := 1, outcome := Outcome.allowed, metadata := none }

/-- Second concrete audit event. -/
def exampleEvent2 : AuditEvent :=
  { userId := "user-1", orgId := "org-123", agentId := none, sessionKey := none,
    eventType := AuditEventType.tool_call_result, toolName := some "exec",
    timestamp := 2, outcome := Outcome.success, metadata := none }

/-- A logger with a configured endpoint and one buffered event. -/
def exampleBusyLogger : AuditLoggerState :=
  { buffer := [exampleEvent1], batchSize := 5, flushIntervalMs := 60000,
    controlPlaneUrl := "https://clawguard.example.com", orgId := "org-123",
    userId := "user-1", accessToken := "test-token",
    auditLevel := AuditLevel.metadata, bufferFile := none }

/-- C6: when the POST fails (non-2xx or transport error), the detached
batch is re-inserted at the front of the live buffer, ahead of the events
enqueued during the flush and in its original order, and the whole
resulting buffer is persisted to disk; when the POST succeeds, the
previously persisted snapshot is cleared. -/
theorem flush_failure_requeues_and_persists (st : AuditLoggerState)
    (during : List AuditEvent) (resp : PostResult)
    (hne : st.buffer ≠ []) (hurl : st.controlPlaneUrl ≠ "") :
    (resp ≠ PostResult.ok →
        (flush st during resp).1.buffer = st.buffer ++ during ∧
        (flush st during resp).1.bufferFile = some ((st.buffer ++ during).map some)) ∧
    (flush st during PostResult.ok).1.bufferFile = none := by
  constructor
  · intro hfail
    simp only [flush, if_neg hne, if_neg hurl]
    cases resp with
    | ok => exact absurd rfl hfail
    | httpError s => exact ⟨rfl, rfl⟩
    | transportError m => exact ⟨rfl, rfl⟩
  · simp only [flush, if_neg hne, if_neg hurl]

/-- C6 witness: a 500 response re-queues the single-event batch ahead of
the event that arrived mid-flight and persists both; a 2xx response
clears the snapshot. -/
theorem flush_failure_requeues_witness :
    (flush exampleBusyLogger [exampleEvent2] (PostResult.httpError 500)).1.buffer
        = exampleBusyLogger.buffer ++ [exampleEvent2] ∧
    (flush exampleBusyLogger [exampleEvent2] (PostResult.httpError 500)).1.bufferFile
        = some ((exampleBusyLogger.buffer ++ [exampleEvent2]).map some) ∧
    (flush exampleBusyLogger [exampleEvent2] PostResult.ok).1.bufferFile = none := by
  have h := flush_failure_requeues_and_persists exampleBusyLogger [exampleEvent2]
    (PostResult.httpError 500) (by decide) (by decide)
  exact ⟨(h.1 (by decide)).1, (h.1 (by decide)).2, h.2⟩

/-- C7: reconstructing the logger reloads every well-formed line of the
persisted snapshot into the buffer in file order, skipping malformed
lines individually; in particular a snapshot of previously persisted
events is reloaded intact and its events form the body of the next
flush. -/
theorem persisted_events_survive_restart (config : ClawGuardPluginConfig)
    (session : SessionTokens) (lvl : Option AuditLevel)
    (lines : List (Option AuditEvent)) (events : List AuditEvent)
    (resp : PostResult) (during : List AuditEvent)
    (hne : events ≠ []) (hurl : config.controlPlaneUrl.getD "" ≠ "") :
    (mkAuditLogger config session lvl (some lines)).buffer = lines.filterMap id ∧
    (mkAuditLogger config session lvl none).buffer = [] ∧
    (mkAuditLogger config session lvl (some (events.map some))).buffer = events ∧
    (flush (mkAuditLogger config session lvl (some (events.map some))) during resp).2
        = some events := by
  have hfm : (events.map some).filterMap id = events := by
    induction events with
    | nil => rfl
    | cons a t ih => simp [List.filterMap_cons, ih]
  have hb : (mkAuditLogger config session lvl (some (events.map some))).buffer = events := by
    show loadPersistedBuffer (some (events.map some)) = events
    simp only [loadPersistedBuffer, hfm]
  refine ⟨rfl, rfl, hb, ?_⟩
  rw [flush_post_body _ _ _ (by rw [hb]; exact hne) hurl, hb]

/-- C7 witness: a snapshot holding two good lines around one malformed
line reloads exactly the two events, and a snapshot of two persisted
events is shipped as the next POST body after reconstruction. -/
theorem persisted_events_survive_restart_witness :
    (mkAuditLogger exampleConfig exampleSession (some AuditLevel.metadata)
        (some [some exampleEvent1, none, some exampleEvent2])).buffer
      = [exampleEvent1, exampleEvent2] ∧
    (flush (mkAuditLogger exampleConfig exampleSession (some AuditLevel.metadata)
        (some ([exampleEvent1, exampleEvent2].map some))) [] PostResult.ok).2
      = some [exampleEvent1, exampleEvent2] := by
  have h := persisted_events_survive_restart exampleConfig exampleSession
    (some AuditLevel.metadata) [some exampleEvent1, none, some exampleEvent2]
    [exampleEvent1, exampleEvent2] PostResult.ok [] (by decide) (by decide)
  exact ⟨h.1.trans (by decide), h.2.2.2⟩

/-- Shared helper: as long as the audit level is not off, a sequence of
enqueue calls appends the corresponding events in order and touches
neither the endpoint configuration nor the snapshot file. -/
theorem enqueueMany_spec (inputs : List (Int × EnqueueParams)) (st : AuditLoggerState)
    (hlvl : st.auditLevel ≠ AuditLevel.off) :
    (enqueueMany st inputs).buffer
        = st.buffer ++ inputs.map (fun tp => mkEvent st tp.1 tp.2) ∧
    (enqueueMany st inputs).controlPlaneUrl = st.controlPlaneUrl ∧
    (enqueueMany st inputs).bufferFile = st.bufferFile := by
  induction inputs generalizing st with
  | nil => simp [enqueueMany]
  | cons tp rest ih =>
      have hstep : (enqueue st tp.1 tp.2).1
          = { st with buffer := st.buffer ++ [mkEvent st tp.1 tp.2] } := by
        unfold enqueue
        rw [if_neg hlvl]
      have h2 := ih { st with buffer := st.buffer ++ [mkEvent st tp.1 tp.2] } hlvl
      show (enqueueMany (enqueue st tp.1 tp.2).1 rest).buffer = _ ∧
           (enqueueMany (enqueue st tp.1 tp.2).1 rest).controlPlaneUrl = _ ∧
           (enqueueMany (enqueue st tp.1 tp.2).1 rest).bufferFile = _
      rw [hstep]
      refine ⟨?_, h2.2.1, h2.2.2⟩
      rw [h2.1]
      simp
      intro a b _
      rfl

/-- Shared helper: a flush of a non-empty buffer with no endpoint
configured empties the buffer, overwrites the snapshot file with exactly
the detached batch, issues no POST, and leaves every other field of the
logger unchanged. -/
theorem flush_no_endpoint (st : AuditLoggerState) (during : List AuditEvent)
    (resp : PostResult) (hne : st.buffer ≠ []) (hurl : st.controlPlaneUrl = "") :
    (flush st during resp).1.buffer = [] ∧
    (flush st during resp).1.bufferFile = some (st.buffer.map some) ∧
    (flush st during resp).2 = none ∧
    (flush st during resp).1.controlPlaneUrl = st.controlPlaneUrl ∧
    (flush st during resp).1.auditLevel = st.auditLevel ∧
    (flush st during resp).1.userId = st.userId ∧
    (flush st during resp).1.orgId = st.orgId := by
  simp [flush, if_neg hne, hurl]

/-- C10: with no control-plane endpoint configured, a flush of a
non-empty buffer empties the in-memory buffer and overwrites the snapshot
file with exactly the detached batch; consequently, after a second such
flush with events enqueued in between, the first batch survives neither
in the buffer nor in the snapshot, which then holds exactly the newer
events. -/
theorem no_endpoint_flush_discards (st : AuditLoggerState)
    (inputs : List (Int × EnqueueParams)) (r1 r2 : PostResult)
    (hurl : st.controlPlaneUrl = "") (hne : st.buffer ≠ [])
    (hlvl : st.auditLevel ≠ AuditLevel.off) (hin : inputs ≠ []) :
    (flush st [] r1).1.buffer = [] ∧
    (flush st [] r1).1.bufferFile = some (st.buffer.map some) ∧
    (flush (enqueueMany (flush st [] r1).1 inputs) [] r2).1.buffer = [] ∧
    (flush (enqueueMany (flush st [] r1).1 inputs) [] r2).1.bufferFile
        = some ((inputs.map (fun tp => mkEvent st tp.1 tp.2)).map some) ∧
    ∀ e ∈ st.buffer,
      e ∉ (flush (enqueueMany (flush st [] r1).1 inputs) [] r2).1.buffer ∧
      ((∀ t p, (t, p) ∈ inputs → e ≠ mkEvent st t p) →
        ∀ l, (flush (enqueueMany (flush st [] r1).1 inputs) [] r2).1.bufferFile = some l →
          some e ∉ l) := by
  have hf1 := flush_no_endpoint st [] r1 hne hurl
  have hlvl1 : (flush st [] r1).1.auditLevel ≠ AuditLevel.off := by
    rw [hf1.2.2.2.2.1]
    exact hlvl
  have h2 := enqueueMany_spec inputs (flush st [] r1).1 hlvl1
  have hcong : ∀ (t : Int) (p : EnqueueParams),
      mkEvent (flush st [] r1).1 t p = mkEvent st t p := by
    intro t p
    unfold mkEvent
    rw [hf1.2.2.2.2.1, hf1.2.2.2.2.2.1, hf1.2.2.2.2.2.2]
  have hmapne : inputs.map (fun tp => mkEvent st tp.1 tp.2) ≠ [] := by
    cases inputs with
    | nil => exact absurd rfl hin
    | cons a t => simp
  have hb2 : (enqueueMany (flush st [] r1).1 inputs).buffer
      = inputs.map (fun tp => mkEvent st tp.1 tp.2) := by
    rw [h2.1, hf1.1]
    simp only [List.nil_append, hcong]
  have hu2 : (enqueueMany (flush st [] r1).1 inputs).controlPlaneUrl = "" := by
    rw [h2.2.1, hf1.2.2.2.1]
    exact hurl
  have hne2 : (enqueueMany (flush st [] r1).1 inputs).buffer ≠ [] := by
    rw [hb2]
    exact hmapne
  have hf3 := flush_no_endpoint (enqueueMany (flush st [] r1).1 inputs) [] r2 hne2 hu2
  have h3f : (flush (enqueueMany (flush st [] r1).1 inputs) [] r2).1.bufferFile
      = some ((inputs.map (fun tp => mkEvent st tp.1 tp.2)).map some) := by
    rw [hf3.2.1, hb2]
  refine ⟨hf1.1, hf1.2.1, hf3.1, h3f, ?_⟩
  intro e he
  constructor
  · rw [hf3.1]
    simp
  · intro hnotnew l hl hmem
    rw [h3f] at hl
    have hl2 : l = (inputs.map (fun tp => mkEvent st tp.1 tp.2)).map some :=
      (Option.some.inj hl).symm
    rw [hl2] at hmem
    simp only [List.mem_map] at hmem
    obtain ⟨ev, hev, heq⟩ := hmem
    obtain ⟨tp, htp, hevdef⟩ := hev
    have : e = ev := (Option.some.inj heq).symm
    subst this
    exact hnotnew tp.1 tp.2 (by simpa using htp) (by rw [← hevdef])

/-- A logger with no control-plane endpoint and one buffered event. -/
def exampleNoUrlLogger : AuditLoggerState :=
  { buffer := [exampleEvent1], batchSize := 5, flushIntervalMs := 60000,
    controlPlaneUrl := "", orgId := "org-123", userId := "user-1",
    accessToken := "test-token", auditLevel := AuditLevel.metadata, bufferFile := none }

/-- C10 witness: with no endpoint, the first flush persists the single
buffered event; after one more enqueue and a second flush, the buffer is
empty and the snapshot holds only the newer event, so the first event is
gone from both. -/
theorem no_endpoint_flush_discards_witness :
    (flush exampleNoUrlLogger [] PostResult.ok).1.bufferFile
        = some (exampleNoUrlLogger.buffer.map some) ∧
    (flush (enqueueMany (flush exampleNoUrlLogger [] PostResult.ok).1
        [(5, exampleMetaParams)]) [] PostResult.ok).1.buffer = [] ∧
    (flush (enqueueMany (flush exampleNoUrlLogger [] PostResult.ok).1
        [(5, exampleMetaParams)]) [] PostResult.ok).1.bufferFile
        = some (([(5, exampleMetaParams)].map
            (fun tp => mkEvent exampleNoUrlLogger tp.1 tp.2)).map some) ∧
    ∀ l, (flush (enqueueMany (flush exampleNoUrlLogger [] PostResult.ok).1
        [(5, exampleMetaParams)]) [] PostResult.ok).1.bufferFile = some l →
      some exampleEvent1 ∉ l := by
  have h := no_endpoint_flush_discards exampleNoUrlLogger [(5, exampleMetaParams)]
    PostResult.ok PostResult.ok rfl (by decide) (by decide) (by decide)
  refine ⟨h.2.1, h.2.2.1, h.2.2.2.1, ?_⟩
  refine (h.2.2.2.2 exampleEvent1 (by decide)).2 ?_
  intro t p htp
  simp only [List.mem_singleton, Prod.mk.injEq] at htp
  obtain ⟨rfl, rfl⟩ := htp
  decide

/-- HeartbeatResponse from types.ts. -/
structure HeartbeatResponse where
  policyVersion : Int
  killSwitch : Bool
  killSwitchMessage : Option String
  refreshPolicyNow : Bool
deriving DecidableEq, Repr

/-- Default heartbeat interval of kill-switch.ts, in milliseconds. -/
def DEFAULT_INTERVAL_MS : Int := 30000

/-- Default consecutive-failure threshold of kill-switch.ts. -/
def DEFAULT_FAILURE_THRESHOLD : Nat := 10

/-- Severity of a log line emitted by the manager. -/
inductive LogLevel
  | info
  | warn
  | error
deriving DecidableEq, Repr

/-- The mutable and configured fields of the KillSwitchManager class,
with the shared ToolEnforcerState it owns a reference to.  The injected
refresh callback is modelled by whether it is present; its invocations
are counted by the step functions. -/
structure KillSwitchManagerState where
  consecutiveFailures : Nat
  intervalMs : Int
  failureThreshold : Nat
  controlPlaneUrl : String
  orgId : String
  userId : String
  accessToken : String
  enforcerState : ToolEnforcerState
  hasRefreshCallback : Bool
deriving DecidableEq, Repr

/-- The KillSwitchManager constructor: config defaults applied over the
session identity and the shared enforcer state. -/
def mkKillSwitchManager (config : ClawGuardPluginConfig) (session : SessionTokens)
    (enforcerState : ToolEnforcerState) (hasRefreshCallback : Bool) :
    KillSwitchManagerState :=
  { consecutiveFailures := 0
    intervalMs := config.heartbeatIntervalMs.getD DEFAULT_INTERVAL_MS
    failureThreshold := config.heartbeatFailureThreshold.getD DEFAULT_FAILURE_THRESHOLD
    controlPlaneUrl := config.controlPlaneUrl.getD ""
    orgId := session.orgId
    userId := session.userId
    accessToken := session.accessToken
    enforcerState := enforcerState
    hasRefreshCallback := hasRefreshCallback }

/-- KillSwitchManager.handleFailure: bump the consecutive-failure
counter, log progress toward the threshold and, once the threshold is
reached, log the degraded-mode escalation.  Nothing else changes: in
particular the shared enforcer state is untouched. -/
def handleFailure (st : KillSwitchManagerState) (reason : String) :
    KillSwitchManagerState × List (LogLevel × String) :=
  let n := st.consecutiveFailures + 1
  let st1 := { st with consecutiveFailures := n }
  let progressLog := (LogLevel.warn,
    "Heartbeat failed (" ++ toString n ++ "/" ++ toString st.failureThreshold ++ "): "
      ++ reason)
  if n ≥ st.failureThreshold then
    (st1, [progressLog,
      (LogLevel.error, "Heartbeat failure threshold reached ("
        ++ toString st.failureThreshold ++ "). Entering degraded mode.")])
  else
    (st1, [progressLog])

/-- The success path of KillSwitchManager.heartbeat, after a 2xx response
has been parsed: reset the failure counter, write the kill-switch state
into the shared enforcer state (logging only on an actual transition),
and invoke the injected refresh callback once when refreshPolicyNow is
set.  The middle component counts refresh-callback invocations. -/
def handleHeartbeatSuccess (st : KillSwitchManagerState) (data : HeartbeatResponse) :
    KillSwitchManagerState × Nat × List (LogLevel × String) :=
  let st0 := { st with consecutiveFailures := 0 }
  let transitionLogs :=
    if data.killSwitch then
      (if st0.enforcerState.killSwitchActive then []
       else [(LogLevel.warn,
         "Kill switch activated: " ++ (data.killSwitchMessage.getD "No message"))])
    else
      (if st0.enforcerState.killSwitchActive
       then [(LogLevel.info, "Kill switch deactivated")] else [])
  let es := st0.enforcerState
  let es1 :=
    if data.killSwitch then
      { es with killSwitchActive := true, killSwitchMessage := data.killSwitchMessage }
    else
      { es with killSwitchActive := false, killSwitchMessage := none }
  let st1 := { st0 with enforcerState := es1 }
  let refreshLogs :=
    if data.refreshPolicyNow
    then [(LogLevel.info, "Policy refresh requested by control plane")] else []
  let refreshCalls := if data.refreshPolicyNow && st1.hasRefreshCallback then 1 else 0
  (st1, refreshCalls, transitionLogs ++ refreshLogs)

/-- Outcome of one heartbeat request: a parsed 2xx response, a non-2xx
status, or a thrown transport error. -/
inductive HeartbeatOutcome
  | ok (data : HeartbeatResponse)
  | notOk (status : Nat)
  | threw (msg : String)
deriving DecidableEq, Repr

/-- KillSwitchManager.heartbeat: no-op without a configured endpoint;
otherwise dispatch on the request outcome, treating a non-2xx status and
a transport error identically through handleFailure. -/
def heartbeat (st : KillSwitchManagerState) (out : HeartbeatOutcome) :
    KillSwitchManagerState × Nat × List (LogLevel × String) :=
  if st.controlPlaneUrl = "" then (st, 0, [])
  else
    match out with
    | HeartbeatOutcome.ok data => handleHeartbeatSuccess st data
    | HeartbeatOutcome.notOk status =>
        let r := handleFailure st ("HTTP " ++ toString status)
        (r.1, 0, r.2)
    | HeartbeatOutcome.threw msg =>
        let r := handleFailure st msg
        (r.1, 0, r.2)

/-- A run of consecutive heartbeat failures. -/
def runFailures (st : KillSwitchManagerState) (reasons : List String) :
    KillSwitchManagerState :=
  reasons.foldl (fun s r => (handleFailure s r).1) st

/-- Shared helper: handleFailure only bumps the counter; every other
field of the manager, the shared enforcer state included, is preserved. -/
theorem handleFailure_state (st : KillSwitchManagerState) (reason : String) :
    (handleFailure st reason).1
      = { st with consecutiveFailures := st.consecutiveFailures + 1 } := by
  unfold handleFailure
  dsimp only
  split <;> rfl

/-- C8: a successful (2xx) heartbeat resets the consecutive-failure
counter to zero, copies the kill-switch flag of the response into
killSwitchActive, sets killSwitchMessage to the response message when the
switch is on and clears it when the switch is off, and invokes the
injected refresh callback exactly once when refreshPolicyNow is set and
not at all otherwise. -/
theorem heartbeat_success_transitions (st : KillSwitchManagerState)
    (data : HeartbeatResponse)
    (hurl : st.controlPlaneUrl ≠ "") (hcb : st.hasRefreshCallback = true) :
    (heartbeat st (HeartbeatOutcome.ok data)).1.consecutiveFailures = 0 ∧
    (heartbeat st (HeartbeatOutcome.ok data)).1.enforcerState.killSwitchActive
        = data.killSwitch ∧
    (heartbeat st (HeartbeatOutcome.ok data)).1.enforcerState.killSwitchMessage
        = (if data.killSwitch then data.killSwitchMessage else none) ∧
    (heartbeat st (HeartbeatOutcome.ok data)).2.1
        = (if data.refreshPolicyNow then 1 else 0) := by
  unfold heartbeat
  rw [if_neg hurl]
  unfold handleHeartbeatSuccess
  cases hks : data.killSwitch <;> cases hrf : data.refreshPolicyNow <;>
    simp [hks, hrf, hcb]

/-- Enforcer state with the kill switch off, as the heartbeat fixtures
start from. -/
def exampleEnforcerInactive : ToolEnforcerState :=
  { policy := none, killSwitchActive := false, killSwitchMessage := none }

/-- Concrete manager built from the config and session fixtures, with a
refresh callback injected. -/
def exampleManager : KillSwitchManagerState :=
  mkKillSwitchManager exampleConfig exampleSession exampleEnforcerInactive true

/-- Heartbeat response turning the kill switch on. -/
def exampleHbOn : HeartbeatResponse :=
  { policyVersion := 1, killSwitch := true, killSwitchMessage := some "Shutdown now",
    refreshPolicyNow := false }

/-- Heartbeat response turning the kill switch back off and requesting a
policy refresh. -/
def exampleHbOff : HeartbeatResponse :=
  { policyVersion := 2, killSwitch := false, killSwitchMessage := none,
    refreshPolicyNow := true }

/-- C8 witness: killSwitch true activates the switch with the response
message; a following killSwitch false response clears both, resets the
counter and fires the refresh callback exactly once. -/
theorem heartbeat_success_transitions_witness :
    ((heartbeat exampleManager (HeartbeatOutcome.ok exampleHbOn)).1.consecutiveFailures
        = 0 ∧
     (heartbeat exampleManager
        (HeartbeatOutcome.ok exampleHbOn)).1.enforcerState.killSwitchActive
        = exampleHbOn.killSwitch ∧
     (heartbeat exampleManager
        (HeartbeatOutcome.ok exampleHbOn)).1.enforcerState.killSwitchMessage
        = (if exampleHbOn.killSwitch then exampleHbOn.killSwitchMessage else none) ∧
     (heartbeat exampleManager (HeartbeatOutcome.ok exampleHbOn)).2.1
        = (if exampleHbOn.refreshPolicyNow then 1 else 0)) ∧
    ((heartbeat (heartbeat exampleManager (HeartbeatOutcome.ok exampleHbOn)).1
        (HeartbeatOutcome.ok exampleHbOff)).1.consecutiveFailures = 0 ∧
     (heartbeat (heartbeat exampleManager (HeartbeatOutcome.ok exampleHbOn)).1
        (HeartbeatOutcome.ok exampleHbOff)).1.enforcerState.killSwitchActive
        = exampleHbOff.killSwitch ∧
     (heartbeat (heartbeat exampleManager (HeartbeatOutcome.ok exampleHbOn)).1
        (HeartbeatOutcome.ok exampleHbOff)).1.enforcerState.killSwitchMessage
        = (if exampleHbOff.killSwitch then exampleHbOff.killSwitchMessage else none) ∧
     (heartbeat (heartbeat exampleManager (HeartbeatOutcome.ok exampleHbOn)).1
        (HeartbeatOutcome.ok exampleHbOff)).2.1
        = (if exampleHbOff.refreshPolicyNow then 1 else 0)) :=
  ⟨heartbeat_success_transitions exampleManager exampleHbOn (by decide) (by decide),
   heartbeat_success_transitions
     (heartbeat exampleManager (HeartbeatOutcome.ok exampleHbOn)).1 exampleHbOff
     (by decide) (by decide)⟩

/-- C9: a heartbeat failure (non-2xx or transport error) increments the
consecutive-failure counter and leaves the shared EnforcementState
entirely unchanged; a whole run of consecutive failures, however long and
even past the configured threshold, still leaves killSwitchActive and
killSwitchMessage at their prior values, while reaching the threshold
merely emits the degraded-mode escalation log. -/
theorem heartbeat_failure_preserves_state (st : KillSwitchManagerState)
    (out : HeartbeatOutcome) (reasons : List String) (reason : String)
    (hurl : st.controlPlaneUrl ≠ "") (hfail : ∀ d, out ≠ HeartbeatOutcome.ok d) :
    (heartbeat st out).1.enforcerState = st.enforcerState ∧
    (heartbeat st out).1.consecutiveFailures = st.consecutiveFailures + 1 ∧
    (handleFailure st reason).1.enforcerState = st.enforcerState ∧
    (handleFailure st reason).1.consecutiveFailures = st.consecutiveFailures + 1 ∧
    (runFailures st reasons).enforcerState = st.enforcerState ∧
    (runFailures st reasons).consecutiveFailures
        = st.consecutiveFailures + reasons.length ∧
    (st.consecutiveFailures + 1 ≥ st.failureThreshold →
      (handleFailure st reason).2.contains (LogLevel.error,
        "Heartbeat failure threshold reached (" ++ toString st.failureThreshold
          ++ "). Entering degraded mode.") = true) := by
  have hrun : ∀ (rs : List String) (s : KillSwitchManagerState),
      (runFailures s rs).enforcerState = s.enforcerState ∧
      (runFailures s rs).consecutiveFailures = s.consecutiveFailures + rs.length := by
    intro rs
    induction rs with
    | nil => intro s; exact ⟨rfl, rfl⟩
    | cons r rest ih =>
        intro s
        have hstep := handleFailure_state s r
        show (runFailures (handleFailure s r).1 rest).enforcerState = _ ∧
             (runFailures (handleFailure s r).1 rest).consecutiveFailures = _
        rw [hstep]
        refine ⟨(ih _).1, ?_⟩
        rw [(ih _).2]
        simp only [List.length_cons]
        omega
  have hhb : (heartbeat st out).1 = (handleFailure st (match out with
      | HeartbeatOutcome.ok _ => ""
      | HeartbeatOutcome.notOk status => "HTTP " ++ toString status
      | HeartbeatOutcome.threw msg => msg)).1 := by
    unfold heartbeat
    rw [if_neg hurl]
    cases out with
    | ok d => exact absurd rfl (hfail d)
    | notOk status => rfl
    | threw msg => rfl
  refine ⟨?_, ?_, ?_, ?_, (hrun reasons st).1, (hrun reasons st).2, ?_⟩
  · rw [hhb, handleFailure_state]
  · rw [hhb, handleFailure_state]
  · rw [handleFailure_state]
  · rw [handleFailure_state]
  · intro hth
    unfold handleFailure
    rw [if_pos hth]
    simp

/-- Manager two failures away from nothing: one more failure reaches the
configured threshold of three. -/
def exampleManagerAlmost : KillSwitchManagerState :=
  { exampleManager with consecutiveFailures := 2 }

/-- C9 witness: a 500 heartbeat on a manager at two consecutive failures
leaves the enforcer state untouched, a run of three more failures still
leaves it untouched, and the failure that reaches the threshold emits the
degraded-mode escalation log. -/
theorem heartbeat_failure_preserves_state_witness :
    (heartbeat exampleManagerAlmost (HeartbeatOutcome.notOk 500)).1.enforcerState
        = exampleManagerAlmost.enforcerState ∧
    (runFailures exampleManagerAlmost ["a", "b", "c"]).enforcerState
        = exampleManagerAlmost.enforcerState ∧
    (handleFailure exampleManagerAlmost "network down").2.contains (LogLevel.error,
        "Heartbeat failure threshold reached ("
          ++ toString exampleManagerAlmost.failureThreshold
          ++ "). Entering degraded mode.") = true := by
  have h := heartbeat_failure_preserves_state exampleManagerAlmost
    (HeartbeatOutcome.notOk 500) ["a", "b", "c"] "network down"
    (by decide) (by intro d hh; exact HeartbeatOutcome.noConfusion hh)
  exact ⟨h.1, h.2.2.2.2.1, h.2.2.2.2.2.2 (by decide)⟩

end ClawGuard
